import Mathlib

/-!
# PulseAudio output plugin (`src/output/pulse_plugin.c`)

A shallow embedding of the plugin's callbacks.  The adapter state is the C
`struct pulse_data`; every callback is a pure function from the state (and the
values its environment hands it: the clock reading, the reply of the sound
server) to the new state, the return code, the library calls it made and the
log lines it wrote.

Conventions:
* a C pointer that may be `NULL` is an `Option`; `none` is `NULL`;
* `int` is a 32-bit two's-complement integer, an `Int` kept in range by
  `wrap_int`;
* `time_t` is a 64-bit two's-complement count of seconds, an `Int`; the C
  subtraction of two `time_t` values is `time_sub`, which wraps (`wrap_time`);
* the sound-server library (`pa_simple_*`) is outside the repository: each
  callback takes the reply the library gives as an argument and records the
  calls it makes, in order.
-/

namespace PulsePlugin

/-! ## Constants and data model -/

/-- The application name, `#define MPD_PULSE_NAME "mpd"`. -/
def MPD_PULSE_NAME : String := "mpd"

/-- Seconds between connection attempts, `#define CONN_ATTEMPT_INTERVAL 60`. -/
def CONN_ATTEMPT_INTERVAL : Int := 60

/-- Largest value of a C `int` (32 bits). -/
def INT_MAX : Int := 2147483647

/-- Value stored in an `int` object after an arithmetic result `x`: reduction
modulo `2^32` into the range `[-2^31, 2^31)`. -/
def wrap_int (x : Int) : Int := (x + 2147483648) % 4294967296 - 2147483648

/-- Largest value of a `time_t` (64 bits). -/
def TIME_MAX : Int := 9223372036854775807

/-- Value of a `time_t` expression whose arithmetic result is `x`: reduction
modulo `2^64` into the range `[-2^63, 2^63)`. -/
def wrap_time (x : Int) : Int :=
  (x + 9223372036854775808) % 18446744073709551616 - 9223372036854775808

/-- The C expression `a - b` on two `time_t` values. -/
def time_sub (a b : Int) : Int := wrap_time (a - b)

/-- A live `pa_simple *`: the address of a connection object, never `NULL`. -/
abbrev Handle := Nat

/-- Modelled from the spec: the host's output-slot descriptor
(`struct audio_output`, declared in `output_api.h`), of which the plugin only
uses the human-readable name. -/
structure audio_output where
  name : String
  deriving DecidableEq, Repr

/-- Modelled from the spec: the host accessor `audio_output_get_name`
("output name lookup"), declared in `output_api.h`. -/
def audio_output_get_name (ao : audio_output) : String := ao.name

/-- Modelled from the spec: the host's sample spec `struct audio_format`
(bit depth, sample rate, channel count), declared outside this file. -/
structure audio_format where
  sample_rate : Int
  bits : Int
  channels : Int
  deriving DecidableEq, Repr

/-- The only `pa_sample_format_t` the plugin uses. -/
inductive pa_sample_format where
  | PA_SAMPLE_S16NE
  deriving DecidableEq, Repr

/-- The library's `pa_sample_spec`. -/
structure pa_sample_spec where
  format : pa_sample_format
  rate : Int
  channels : Int
  deriving DecidableEq, Repr

/-- The adapter state, `struct pulse_data`. -/
structure pulse_data where
  ao : audio_output
  s : Option Handle
  server : Option String
  sink : Option String
  num_connect_attempts : Int
  last_connect_attempt : Int
  deriving DecidableEq, Repr

/-- One call into the sound-server client library, with its arguments. -/
inductive PaCall where
  | pa_simple_new (server : Option String) (name : String) (dev : Option String)
      (stream_name : String) (ss : pa_sample_spec)
  | pa_simple_flush (s : Option Handle)
  | pa_simple_drain (s : Handle)
  | pa_simple_free (s : Handle)
  | pa_simple_write (s : Option Handle) (data : List Nat) (size : Nat)
  deriving DecidableEq, Repr

/-- One log line; the arguments are the ones the C format string receives,
an `error` being the library's error code (printed through `pa_strerror`). -/
inductive LogLine where
  | WARNING_default_device (error : Int)
  | ERROR_cannot_connect (name : String) (attempt : Int) (error : Int)
  | DEBUG_connected (name : String) (bits channels sample_rate : Int)
  | WARNING_flush_failed (name : String) (error : Int)
  | ERROR_write_error (name : String) (error : Int)
  deriving DecidableEq, Repr

/-- Reply of `pa_simple_new`: the connection (or `NULL`) and the error code it
stores through its last argument. -/
structure NewReply where
  s : Option Handle
  error : Int
  deriving DecidableEq, Repr

/-- Reply of `pa_simple_flush` and `pa_simple_write`: the return value
(negative on failure) and the error code. -/
structure IntReply where
  ret : Int
  error : Int
  deriving DecidableEq, Repr

/-! ## Configuration -/

/-- Modelled from the spec: a named string parameter of a configuration block
(`BlockParam`, declared in `conf.h`); the plugin reads its `value`. -/
structure BlockParam where
  name : String
  value : String
  deriving DecidableEq, Repr

/-- Modelled from the spec: the configuration record of one output
(`ConfigParam`, declared in `conf.h`), "zero or more named string parameters". -/
structure ConfigParam where
  block_params : List BlockParam
  deriving DecidableEq, Repr

/-! ## The callbacks -/

/-- The function `pulse_new_data`: the freshly allocated state.  `xmalloc` leaves the `ao`
field unassigned; `ao0` stands for whatever the fresh memory holds there. -/
def pulse_new_data (ao0 : audio_output) : pulse_data :=
  { ao := ao0
    s := none
    server := none
    sink := none
    num_connect_attempts := 0
    last_connect_attempt := 0 }

/-- The callback `pulse_init`.  `getBlockParam` is the host's configuration lookup
(`conf.c`), taken as a parameter; `param` is `none` for a `NULL` block.  The
result is the returned `void *`: `none` would be `NULL`. -/
def pulse_init (getBlockParam : ConfigParam → String → Option BlockParam)
    (ao0 : audio_output) (ao : audio_output) (_audio_format : Option audio_format)
    (param : Option ConfigParam) : Option pulse_data :=
  let server : Option BlockParam :=
    match param with
    | some p => getBlockParam p "server"
    | none => none
  let sink : Option BlockParam :=
    match param with
    | some p => getBlockParam p "sink"
    | none => none
  let pd := pulse_new_data ao0
  let pd := { pd with ao := ao }
  let pd := { pd with server := match server with
                                | some b => some b.value
                                | none => none }
  let pd := { pd with sink := match sink with
                              | some b => some b.value
                              | none => none }
  some pd

/-- What `pulse_test_default_device` leaves behind. -/
structure ProbeResult where
  ret : Int
  calls : List PaCall
  log : List LogLine
  deriving DecidableEq, Repr

/-- The probe `pulse_test_default_device`.  `reply` is the answer of
`pa_simple_new`. -/
def pulse_test_default_device (reply : NewReply) : ProbeResult :=
  let ss : pa_sample_spec := { format := .PA_SAMPLE_S16NE, rate := 44100, channels := 2 }
  let call := PaCall.pa_simple_new none MPD_PULSE_NAME none MPD_PULSE_NAME ss
  match reply.s with
  | none =>
    { ret := -1, calls := [call], log := [LogLine.WARNING_default_device reply.error] }
  | some s =>
    { ret := 0, calls := [call, PaCall.pa_simple_free s], log := [] }

/-- What `pulse_open` leaves behind: its return value, the state, the caller's
`audio_format`, the library calls made and the log lines written. -/
structure OpenResult where
  ret : Int
  pd : pulse_data
  audio_format : audio_format
  calls : List PaCall
  log : List LogLine
  deriving DecidableEq, Repr

/-- The callback `pulse_open`.  `t` is the value of `time(NULL)`, `reply` what
`pa_simple_new` answers if it is called. -/
def pulse_open (pd : pulse_data) (af : audio_format) (t : Int) (reply : NewReply) :
    OpenResult :=
  if pd.num_connect_attempts ≠ 0 ∧
      time_sub t pd.last_connect_attempt < CONN_ATTEMPT_INTERVAL then
    { ret := -1, pd := pd, audio_format := af, calls := [], log := [] }
  else
    let pd := { pd with num_connect_attempts := wrap_int (pd.num_connect_attempts + 1) }
    let pd := { pd with last_connect_attempt := t }
    let af := { af with bits := 16 }
    let ss : pa_sample_spec :=
      { format := .PA_SAMPLE_S16NE, rate := af.sample_rate, channels := af.channels }
    let call := PaCall.pa_simple_new pd.server MPD_PULSE_NAME pd.sink
      (audio_output_get_name pd.ao) ss
    let pd := { pd with s := reply.s }
    match pd.s with
    | none =>
      { ret := -1, pd := pd, audio_format := af, calls := [call],
        log := [LogLine.ERROR_cannot_connect (audio_output_get_name pd.ao)
                  pd.num_connect_attempts reply.error] }
    | some _ =>
      let pd := { pd with num_connect_attempts := 0 }
      { ret := 0, pd := pd, audio_format := af, calls := [call],
        log := [LogLine.DEBUG_connected (audio_output_get_name pd.ao)
                  af.bits af.channels af.sample_rate] }

/-- What a callback without a return value leaves behind. -/
structure VoidResult where
  pd : pulse_data
  calls : List PaCall
  log : List LogLine
  deriving DecidableEq, Repr

/-- The callback `pulse_cancel`.  `reply` is the answer of `pa_simple_flush`. -/
def pulse_cancel (pd : pulse_data) (reply : IntReply) : VoidResult :=
  let call := PaCall.pa_simple_flush pd.s
  if reply.ret < 0 then
    { pd := pd, calls := [call],
      log := [LogLine.WARNING_flush_failed (audio_output_get_name pd.ao) reply.error] }
  else
    { pd := pd, calls := [call], log := [] }

/-- The callback `pulse_close`.  The result of `pa_simple_drain` is ignored (its error
argument is `NULL`); no field of the state is assigned. -/
def pulse_close (pd : pulse_data) : VoidResult :=
  match pd.s with
  | some h =>
    { pd := pd, calls := [PaCall.pa_simple_drain h, PaCall.pa_simple_free h], log := [] }
  | none =>
    { pd := pd, calls := [], log := [] }

/-- What `pulse_play` leaves behind. -/
structure PlayResult where
  ret : Int
  pd : pulse_data
  calls : List PaCall
  log : List LogLine
  deriving DecidableEq, Repr

/-- The callback `pulse_play`.  `reply` is the answer of `pa_simple_write`. -/
def pulse_play (pd : pulse_data) (playChunk : List Nat) (size : Nat) (reply : IntReply) :
    PlayResult :=
  let call := PaCall.pa_simple_write pd.s playChunk size
  if reply.ret < 0 then
    let log := [LogLine.ERROR_write_error (audio_output_get_name pd.ao) reply.error]
    let closed := pulse_close pd
    { ret := -1, pd := closed.pd, calls := call :: closed.calls, log := log ++ closed.log }
  else
    { ret := 0, pd := pd, calls := [call], log := [] }

/-! ## Observations on a result -/

/-- Whether a library call is a connection attempt (`pa_simple_new`). -/
def is_connect : PaCall → Bool
  | .pa_simple_new _ _ _ _ _ => true
  | _ => false

/-- Whether the calls made include a connection attempt at the sound server. -/
def contacts_server (calls : List PaCall) : Bool := calls.any is_connect

/-- The guard at the head of `pulse_open`: a previous attempt failed and fewer
than `CONN_ATTEMPT_INTERVAL` seconds have gone by since. -/
def throttled (pd : pulse_data) (t : Int) : Prop :=
  pd.num_connect_attempts ≠ 0 ∧
    time_sub t pd.last_connect_attempt < CONN_ATTEMPT_INTERVAL

instance (pd : pulse_data) (t : Int) : Decidable (throttled pd t) :=
  inferInstanceAs (Decidable (_ ∧ _))

/-! ## Runs of the plugin -/

/-- One `pulse_open` call of a run: the requested format, the clock reading
and the reply the server would give. -/
structure OpenCall where
  af : audio_format
  t : Int
  reply : NewReply
  deriving DecidableEq, Repr

/-- The results of a sequence of `pulse_open` calls, each made on the state
the previous one left. -/
def open_results (pd : pulse_data) : List OpenCall → List OpenResult
  | [] => []
  | c :: cs =>
    (pulse_open pd c.af c.t c.reply) :: open_results (pulse_open pd c.af c.t c.reply).pd cs

/-- The state a sequence of `pulse_open` calls leaves. -/
def open_state (pd : pulse_data) : List OpenCall → pulse_data
  | [] => pd
  | c :: cs => open_state (pulse_open pd c.af c.t c.reply).pd cs

/-- A call of the host into the plugin, with what the environment answers. -/
inductive Op where
  | call_open (af : audio_format) (t : Int) (reply : NewReply)
  | call_play (playChunk : List Nat) (size : Nat) (reply : IntReply)
  | call_cancel (reply : IntReply)
  | call_close
  deriving DecidableEq, Repr

/-- The host protocol of the spec, `Open -> (Play | Cancel)* -> Close`
repeated; the flag says whether a cycle is under way.  Every prefix of such a
run is accepted. -/
def follows_protocol : Bool → List Op → Bool
  | _, [] => true
  | false, .call_open _ _ _ :: ops => follows_protocol true ops
  | true, .call_play _ _ _ :: ops => follows_protocol true ops
  | true, .call_cancel _ :: ops => follows_protocol true ops
  | true, .call_close :: ops => follows_protocol false ops
  | _, _ :: _ => false

/-- The adapter state during a run, with the spec's "open/playing" state
beside it. -/
structure RunState where
  pd : pulse_data
  spec_playing : Bool
  deriving DecidableEq, Repr

/-- One step of a run.  `spec_playing` follows the spec's words: it is set by
a successful `pulse_open` and cleared by `pulse_close` and by a failed
`pulse_play`; the `pd` component is what the code computes. -/
def step (st : RunState) : Op → RunState
  | .call_open af t reply =>
    { pd := (pulse_open st.pd af t reply).pd
      spec_playing := if (pulse_open st.pd af t reply).ret = 0 then true else st.spec_playing }
  | .call_play playChunk size reply =>
    { pd := (pulse_play st.pd playChunk size reply).pd
      spec_playing :=
        if (pulse_play st.pd playChunk size reply).ret = 0 then st.spec_playing else false }
  | .call_cancel reply =>
    { pd := (pulse_cancel st.pd reply).pd, spec_playing := st.spec_playing }
  | .call_close =>
    { pd := (pulse_close st.pd).pd, spec_playing := false }

/-- A run: the calls made one after the other. -/
def run (st : RunState) (ops : List Op) : RunState := ops.foldl step st

/-! ## Concrete inputs -/

/-- A configuration lookup that returns the first parameter of the given name. -/
def first_block_param (param : ConfigParam) (name : String) : Option BlockParam :=
  param.block_params.find? (fun b => b.name == name)

/-- An output descriptor. -/
def ex_ao : audio_output := { name := "pulse out" }

/-- The state `pulse_init` returns for `ex_ao` without a configuration block. -/
def ex_fresh : pulse_data :=
  { ao := ex_ao, s := none, server := none, sink := none,
    num_connect_attempts := 0, last_connect_attempt := 0 }

/-- A 24-bit, 48 kHz, stereo request. -/
def ex_format : audio_format := { sample_rate := 48000, bits := 24, channels := 2 }

/-- The server refuses the connection (error code 6). -/
def ex_refused : NewReply := { s := none, error := 6 }

/-- The server accepts the connection and hands out the object at address 7. -/
def ex_accepted : NewReply := { s := some 7, error := 0 }

/-- A failed write (error code 8). -/
def ex_write_failed : IntReply := { ret := -1, error := 8 }

/-! ## Basic facts about `time_sub` -/

/-- When the difference of two times is itself a `time_t` value, the C
subtraction is the subtraction of integers. -/
theorem time_sub_of_no_overflow (a b : Int) (hlo : -TIME_MAX - 1 ≤ a - b)
    (hhi : a - b ≤ TIME_MAX) : time_sub a b = a - b := by
  unfold TIME_MAX at hlo hhi
  unfold time_sub wrap_time
  omega

/-- Clock readings (`time` returns a non-negative count, or `-1`) and a stored
non-negative time never overflow. -/
theorem time_sub_of_clock (t last : Int) (ht : -1 ≤ t) (ht2 : t ≤ TIME_MAX)
    (hl : 0 ≤ last) (hl2 : last ≤ TIME_MAX) : time_sub t last = t - last := by
  apply time_sub_of_no_overflow
  · unfold TIME_MAX at *
    omega
  · unfold TIME_MAX at *
    omega

/-- The difference of a time and the same time shifted by `d` seconds. -/
theorem time_sub_add_left (t0 d : Int) (hlo : -TIME_MAX - 1 ≤ d) (hhi : d ≤ TIME_MAX) :
    time_sub (t0 + d) t0 = d := by
  rw [time_sub_of_no_overflow (t0 + d) t0 (by omega) (by omega)]
  omega

/-! ## Basic facts about `pulse_open` -/

theorem pulse_open_of_throttled (pd : pulse_data) (af : audio_format) (t : Int)
    (reply : NewReply) (h : throttled pd t) :
    pulse_open pd af t reply =
      { ret := -1, pd := pd, audio_format := af, calls := [], log := [] } := by
  unfold throttled at h
  unfold pulse_open
  rw [if_pos h]

theorem pulse_open_calls_of_not_throttled (pd : pulse_data) (af : audio_format) (t : Int)
    (reply : NewReply) (h : ¬ throttled pd t) :
    (pulse_open pd af t reply).calls =
      [PaCall.pa_simple_new pd.server MPD_PULSE_NAME pd.sink (audio_output_get_name pd.ao)
        { format := .PA_SAMPLE_S16NE, rate := af.sample_rate, channels := af.channels }] := by
  unfold throttled at h
  unfold pulse_open
  rw [if_neg h]
  cases hs : reply.s <;> simp [hs]

theorem not_throttled_iff (pd : pulse_data) (t : Int) :
    ¬ throttled pd t ↔
      (pd.num_connect_attempts = 0 ∨ time_sub t pd.last_connect_attempt ≥ 60) := by
  unfold throttled CONN_ATTEMPT_INTERVAL
  constructor
  · intro h
    by_cases h0 : pd.num_connect_attempts = 0
    · exact Or.inl h0
    · right
      by_contra hlt
      exact h ⟨h0, by omega⟩
  · rintro (h0 | hge) ⟨hne, hlt⟩
    · exact hne h0
    · omega

/-- While the guard holds, every further `pulse_open` whose clock reading is
within the interval is throttled and the state stays as it is. -/
theorem open_calls_all_throttled (pd : pulse_data) (cs : List OpenCall)
    (hn : pd.num_connect_attempts ≠ 0)
    (hcs : ∀ c ∈ cs, time_sub c.t pd.last_connect_attempt < 60) :
    (∀ r ∈ open_results pd cs, r.ret = -1 ∧ r.calls = []) ∧ open_state pd cs = pd := by
  induction cs with
  | nil => simp [open_results, open_state]
  | cons c cs ih =>
    have hc : throttled pd c.t := ⟨hn, hcs c (List.mem_cons_self c cs)⟩
    have hrest : ∀ d ∈ cs, time_sub d.t pd.last_connect_attempt < 60 :=
      fun d hd => hcs d (List.mem_cons_of_mem c hd)
    have hopen := pulse_open_of_throttled pd c.af c.t c.reply hc
    obtain ⟨ih1, ih2⟩ := ih hrest
    constructor
    · intro r hr
      simp only [open_results, hopen, List.mem_cons] at hr
      rcases hr with hr | hr
      · subst hr
        exact ⟨rfl, rfl⟩
      · exact ih1 r hr
    · simp only [open_state, hopen]
      exact ih2

/-- The callback `pulse_close` assigns no field of the state. -/
theorem pulse_close_state (pd : pulse_data) : (pulse_close pd).pd = pd := by
  unfold pulse_close
  cases pd.s <;> rfl

/-- A failed write: `pulse_play` returns `-1` and leaves the state of
`pulse_close`, in which the handle field is the one it found. -/
theorem pulse_play_of_write_failed (pd : pulse_data) (playChunk : List Nat) (size : Nat)
    (reply : IntReply) (h : reply.ret < 0) :
    (pulse_play pd playChunk size reply).ret = -1 ∧
    (pulse_play pd playChunk size reply).pd = (pulse_close pd).pd ∧
    (pulse_play pd playChunk size reply).pd.s = pd.s := by
  unfold pulse_play
  rw [if_pos h]
  simp [pulse_close_state]

/-- A successful write: `pulse_play` returns 0 and leaves the state alone. -/
theorem pulse_play_of_write_ok (pd : pulse_data) (playChunk : List Nat) (size : Nat)
    (reply : IntReply) (h : ¬ reply.ret < 0) :
    (pulse_play pd playChunk size reply).ret = 0 ∧
    (pulse_play pd playChunk size reply).pd = pd := by
  unfold pulse_play
  rw [if_neg h]
  exact ⟨rfl, rfl⟩

/-! ## Claims -/

/-- C1: `pulse_open` contacts the sound server exactly when the throttle guard
does not fire, that is when `num_connect_attempts = 0` or the C expression
`t - last_connect_attempt` is at least 60; when the guard fires it returns
`-1` and makes no library call at all; with an attempt count of 0 the server
is contacted whatever the elapsed time.  The subtraction is the one of
`time_t`; wherever it does not overflow, the same holds of the difference of
the two times as integers. -/
theorem pulse_open_contacts_server_iff (pd : pulse_data) (af : audio_format) (t : Int)
    (reply : NewReply) :
    (contacts_server (pulse_open pd af t reply).calls = true ↔
        (pd.num_connect_attempts = 0 ∨ time_sub t pd.last_connect_attempt ≥ 60)) ∧
    ((pd.num_connect_attempts ≠ 0 ∧ time_sub t pd.last_connect_attempt < 60) →
        (pulse_open pd af t reply).ret = -1 ∧ (pulse_open pd af t reply).calls = []) ∧
    (pd.num_connect_attempts = 0 →
        contacts_server (pulse_open pd af t reply).calls = true) ∧
    (-TIME_MAX - 1 ≤ t - pd.last_connect_attempt → t - pd.last_connect_attempt ≤ TIME_MAX →
      ((contacts_server (pulse_open pd af t reply).calls = true ↔
          (pd.num_connect_attempts = 0 ∨ t - pd.last_connect_attempt ≥ 60)) ∧
       ((pd.num_connect_attempts ≠ 0 ∧ t - pd.last_connect_attempt < 60) →
          (pulse_open pd af t reply).ret = -1 ∧ (pulse_open pd af t reply).calls = []))) := by
  have key : contacts_server (pulse_open pd af t reply).calls = true ↔ ¬ throttled pd t := by
    by_cases h : throttled pd t
    · rw [pulse_open_of_throttled pd af t reply h]
      simp [contacts_server, h]
    · rw [pulse_open_calls_of_not_throttled pd af t reply h]
      simp [contacts_server, is_connect, h]
  have hthr : (pd.num_connect_attempts ≠ 0 ∧ time_sub t pd.last_connect_attempt < 60) →
      (pulse_open pd af t reply).ret = -1 ∧ (pulse_open pd af t reply).calls = [] := by
    intro h
    have ht : throttled pd t := h
    rw [pulse_open_of_throttled pd af t reply ht]
    exact ⟨rfl, rfl⟩
  refine ⟨key.trans (not_throttled_iff pd t), hthr, ?_, ?_⟩
  · intro h0
    exact key.mpr ((not_throttled_iff pd t).mpr (Or.inl h0))
  · intro hlo hhi
    have he := time_sub_of_no_overflow t pd.last_connect_attempt hlo hhi
    rw [← he]
    exact ⟨key.trans (not_throttled_iff pd t), hthr⟩

/-- C2, as stated, fails: after one refused Open at time 1000 the attempt
count is 1; the Open made 10 s later is throttled and leaves the count at 1,
not at 2. -/
theorem throttled_open_count_counterexample :
    (pulse_open ex_fresh ex_format 1000 ex_refused).pd.num_connect_attempts ≠ 0 ∧
    (1010 : Int) - (pulse_open ex_fresh ex_format 1000 ex_refused).pd.last_connect_attempt < 60 ∧
    time_sub 1010 (pulse_open ex_fresh ex_format 1000 ex_refused).pd.last_connect_attempt < 60 ∧
    (pulse_open (pulse_open ex_fresh ex_format 1000 ex_refused).pd
        ex_format 1010 ex_refused).pd.num_connect_attempts = 1 ∧
    (pulse_open (pulse_open ex_fresh ex_format 1000 ex_refused).pd
        ex_format 1010 ex_refused).pd.num_connect_attempts ≠
      (pulse_open ex_fresh ex_format 1000 ex_refused).pd.num_connect_attempts + 1 := by
  decide

/-- C2, amended: a throttled `pulse_open` (attempt count not 0 and the C
expression `t - last_connect_attempt` below 60) records nothing: it returns `-1` and leaves
the whole adapter state, `num_connect_attempts` and `last_connect_attempt`
included, as it was. -/
theorem pulse_open_throttled_records_nothing (pd : pulse_data) (af : audio_format) (t : Int)
    (reply : NewReply) (hn : pd.num_connect_attempts ≠ 0)
    (ht : time_sub t pd.last_connect_attempt < 60) :
    (pulse_open pd af t reply).ret = -1 ∧
    (pulse_open pd af t reply).pd = pd ∧
    (pulse_open pd af t reply).pd.num_connect_attempts = pd.num_connect_attempts ∧
    (pulse_open pd af t reply).pd.last_connect_attempt = pd.last_connect_attempt := by
  have h : throttled pd t := ⟨hn, ht⟩
  rw [pulse_open_of_throttled pd af t reply h]
  exact ⟨rfl, rfl, rfl, rfl⟩

/-- Witness for C2 amended: the Open made 10 s after a refused one. -/
theorem pulse_open_throttled_records_nothing_witness :
    (pulse_open (pulse_open ex_fresh ex_format 1000 ex_refused).pd
        ex_format 1010 ex_accepted).ret = -1 ∧
    (pulse_open (pulse_open ex_fresh ex_format 1000 ex_refused).pd
        ex_format 1010 ex_accepted).pd = (pulse_open ex_fresh ex_format 1000 ex_refused).pd ∧
    (pulse_open (pulse_open ex_fresh ex_format 1000 ex_refused).pd
        ex_format 1010 ex_accepted).pd.num_connect_attempts =
      (pulse_open ex_fresh ex_format 1000 ex_refused).pd.num_connect_attempts ∧
    (pulse_open (pulse_open ex_fresh ex_format 1000 ex_refused).pd
        ex_format 1010 ex_accepted).pd.last_connect_attempt =
      (pulse_open ex_fresh ex_format 1000 ex_refused).pd.last_connect_attempt :=
  pulse_open_throttled_records_nothing (pulse_open ex_fresh ex_format 1000 ex_refused).pd
    ex_format 1010 ex_accepted (by decide) (by decide)

/-- C3, as stated, fails: a throttled Open returns before the format is
touched, so a 24-bit request made 10 s after a refused Open still reads 24
bits afterwards. -/
theorem throttled_open_format_counterexample :
    (pulse_open (pulse_open ex_fresh ex_format 1000 ex_refused).pd
        { sample_rate := 48000, bits := 24, channels := 2 } 1010 ex_accepted).audio_format =
      { sample_rate := 48000, bits := 24, channels := 2 } ∧
    (pulse_open (pulse_open ex_fresh ex_format 1000 ex_refused).pd
        { sample_rate := 48000, bits := 24, channels := 2 } 1010 ex_accepted).audio_format.bits
      ≠ 16 := by
  decide

/-- C3, amended: on every `pulse_open` call that is not throttled (attempt
count 0, or the C expression `t - last_connect_attempt` at least 60), whatever the server
answers, the caller's format afterwards is the requested one with `bits`
replaced by 16; `sample_rate` and `channels` are unchanged. -/
theorem pulse_open_forces_16_bits (pd : pulse_data) (af : audio_format) (t : Int)
    (reply : NewReply)
    (h : pd.num_connect_attempts = 0 ∨ time_sub t pd.last_connect_attempt ≥ 60) :
    (pulse_open pd af t reply).audio_format = { af with bits := 16 } ∧
    (pulse_open pd af t reply).audio_format.bits = 16 ∧
    (pulse_open pd af t reply).audio_format.sample_rate = af.sample_rate ∧
    (pulse_open pd af t reply).audio_format.channels = af.channels := by
  have hnt : ¬ (pd.num_connect_attempts ≠ 0 ∧
      time_sub t pd.last_connect_attempt < CONN_ATTEMPT_INTERVAL) :=
    (not_throttled_iff pd t).mpr h
  unfold pulse_open
  rw [if_neg hnt]
  cases hs : reply.s <;> simp [hs]

/-- Witness for C3 amended: `{bits=24, rate=48000, channels=2}` becomes
`{bits=16, rate=48000, channels=2}` on a first Open. -/
theorem pulse_open_forces_16_bits_witness :
    (pulse_open ex_fresh { sample_rate := 48000, bits := 24, channels := 2 } 1000
        ex_refused).audio_format = { sample_rate := 48000, bits := 16, channels := 2 } ∧
    (pulse_open ex_fresh { sample_rate := 48000, bits := 24, channels := 2 } 1000
        ex_refused).audio_format.bits = 16 ∧
    (pulse_open ex_fresh { sample_rate := 48000, bits := 24, channels := 2 } 1000
        ex_refused).audio_format.sample_rate = 48000 ∧
    (pulse_open ex_fresh { sample_rate := 48000, bits := 24, channels := 2 } 1000
        ex_refused).audio_format.channels = 2 :=
  pulse_open_forces_16_bits ex_fresh { sample_rate := 48000, bits := 24, channels := 2 } 1000
    ex_refused (Or.inl rfl)

/-- C4: when `pulse_open` is not throttled (attempt count 0, or the C
expression `t - last_connect_attempt` at least 60) and the server accepts the
connection (answers the non-null handle `h`), it returns 0, stores `h` in the
state and leaves `num_connect_attempts` at 0, whatever the count was before. -/
theorem pulse_open_success (pd : pulse_data) (af : audio_format) (t : Int)
    (reply : NewReply) (h : Handle)
    (hguard : pd.num_connect_attempts = 0 ∨ time_sub t pd.last_connect_attempt ≥ 60)
    (haccept : reply.s = some h) :
    (pulse_open pd af t reply).ret = 0 ∧
    (pulse_open pd af t reply).pd.s = some h ∧
    (pulse_open pd af t reply).pd.num_connect_attempts = 0 := by
  have hnt : ¬ (pd.num_connect_attempts ≠ 0 ∧
      time_sub t pd.last_connect_attempt < CONN_ATTEMPT_INTERVAL) :=
    (not_throttled_iff pd t).mpr hguard
  unfold pulse_open
  rw [if_neg hnt]
  simp [haccept]

/-- Witness for C4: after three refused attempts, the last at time 1000, an
Open at time 1060 that the server accepts. -/
theorem pulse_open_success_witness :
    (pulse_open { ex_fresh with num_connect_attempts := 3, last_connect_attempt := 1000 }
        ex_format 1060 ex_accepted).ret = 0 ∧
    (pulse_open { ex_fresh with num_connect_attempts := 3, last_connect_attempt := 1000 }
        ex_format 1060 ex_accepted).pd.s = some 7 ∧
    (pulse_open { ex_fresh with num_connect_attempts := 3, last_connect_attempt := 1000 }
        ex_format 1060 ex_accepted).pd.num_connect_attempts = 0 :=
  pulse_open_success { ex_fresh with num_connect_attempts := 3, last_connect_attempt := 1000 }
    ex_format 1060 ex_accepted 7 (Or.inr (by decide)) rfl

/-- C5, as stated, fails: the counter is a C `int`.  With
`num_connect_attempts = INT_MAX`, an Open that is not throttled (60 s after
the last attempt) and that the server refuses returns `-1` and leaves the
handle null, but the counter it stores is `-2147483648`, not the previous
value plus 1. -/
theorem pulse_open_refused_overflow_counterexample :
    time_sub 1060 1000 ≥ 60 ∧
    (1060 : Int) - 1000 ≥ 60 ∧
    ex_refused.s = none ∧
    (pulse_open { ex_fresh with num_connect_attempts := 2147483647,
                                last_connect_attempt := 1000 }
        ex_format 1060 ex_refused).ret = -1 ∧
    (pulse_open { ex_fresh with num_connect_attempts := 2147483647,
                                last_connect_attempt := 1000 }
        ex_format 1060 ex_refused).pd.num_connect_attempts = -2147483648 ∧
    (pulse_open { ex_fresh with num_connect_attempts := 2147483647,
                                last_connect_attempt := 1000 }
        ex_format 1060 ex_refused).pd.num_connect_attempts ≠ 2147483647 + 1 := by
  decide

/-- C5, amended: when the attempt count is an `int` value below `INT_MAX`,
`pulse_open` is not throttled (attempt count 0, or the C expression
`t - last_connect_attempt` at least 60) and the server refuses the connection,
`pulse_open` returns `-1`, leaves the handle null (also when it was not null
before), sets `num_connect_attempts` to the previous value plus 1 and
`last_connect_attempt` to the call time. -/
theorem pulse_open_refused (pd : pulse_data) (af : audio_format) (t : Int)
    (reply : NewReply)
    (hguard : pd.num_connect_attempts = 0 ∨ time_sub t pd.last_connect_attempt ≥ 60)
    (hrefuse : reply.s = none)
    (hlo : -INT_MAX - 1 ≤ pd.num_connect_attempts)
    (hhi : pd.num_connect_attempts < INT_MAX) :
    (pulse_open pd af t reply).ret = -1 ∧
    (pulse_open pd af t reply).pd.s = none ∧
    (pulse_open pd af t reply).pd.num_connect_attempts = pd.num_connect_attempts + 1 ∧
    (pulse_open pd af t reply).pd.last_connect_attempt = t := by
  have hnt : ¬ (pd.num_connect_attempts ≠ 0 ∧
      time_sub t pd.last_connect_attempt < CONN_ATTEMPT_INTERVAL) :=
    (not_throttled_iff pd t).mpr hguard
  have hw : wrap_int (pd.num_connect_attempts + 1) = pd.num_connect_attempts + 1 := by
    unfold INT_MAX at hlo hhi
    unfold wrap_int
    omega
  unfold pulse_open
  rw [if_neg hnt]
  simp only [hrefuse]
  exact ⟨trivial, trivial, hw, trivial⟩

/-- Witness for C5 amended: a state that still holds the handle 7, with two
failed attempts on record, the last at time 1000, and an Open at time 1060
that the server refuses: the count goes from 2 to 3. -/
theorem pulse_open_refused_witness :
    (pulse_open { ex_fresh with s := some 7, num_connect_attempts := 2,
                                last_connect_attempt := 1000 }
        ex_format 1060 ex_refused).ret = -1 ∧
    (pulse_open { ex_fresh with s := some 7, num_connect_attempts := 2,
                                last_connect_attempt := 1000 }
        ex_format 1060 ex_refused).pd.s = none ∧
    (pulse_open { ex_fresh with s := some 7, num_connect_attempts := 2,
                                last_connect_attempt := 1000 }
        ex_format 1060 ex_refused).pd.num_connect_attempts = 2 + 1 ∧
    (pulse_open { ex_fresh with s := some 7, num_connect_attempts := 2,
                                last_connect_attempt := 1000 }
        ex_format 1060 ex_refused).pd.last_connect_attempt = 1060 :=
  pulse_open_refused { ex_fresh with s := some 7, num_connect_attempts := 2,
                                     last_connect_attempt := 1000 }
    ex_format 1060 ex_refused (Or.inr (by decide)) rfl (by decide) (by decide)

/-- C6, evaluated on a connected state (Open accepted with handle 7) whose
write fails: `pulse_play` returns `-1`, calls `pa_simple_drain` and
`pa_simple_free` on the handle, and the state it leaves is the state after
`pulse_close`; but in that state the handle field still holds 7, it is not
null. -/
theorem pulse_play_write_failure_keeps_handle :
    (pulse_open ex_fresh ex_format 1000 ex_accepted).pd.s = some 7 ∧
    (pulse_play (pulse_open ex_fresh ex_format 1000 ex_accepted).pd [0, 0, 0, 0] 4
        ex_write_failed).ret = -1 ∧
    (pulse_play (pulse_open ex_fresh ex_format 1000 ex_accepted).pd [0, 0, 0, 0] 4
        ex_write_failed).calls =
      [PaCall.pa_simple_write (some 7) [0, 0, 0, 0] 4, PaCall.pa_simple_drain 7,
        PaCall.pa_simple_free 7] ∧
    (pulse_play (pulse_open ex_fresh ex_format 1000 ex_accepted).pd [0, 0, 0, 0] 4
        ex_write_failed).pd =
      (pulse_close (pulse_open ex_fresh ex_format 1000 ex_accepted).pd).pd ∧
    (pulse_play (pulse_open ex_fresh ex_format 1000 ex_accepted).pd [0, 0, 0, 0] 4
        ex_write_failed).pd.s = some 7 ∧
    (pulse_play (pulse_open ex_fresh ex_format 1000 ex_accepted).pd [0, 0, 0, 0] 4
        ex_write_failed).pd.s ≠ none := by
  decide

/-- C7, evaluated on a connected state (Open accepted with handle 7): after
`pulse_close` the handle field still holds 7, and a second `pulse_close`
drains and frees the same handle once more.  The state itself is the same
after both calls. -/
theorem pulse_close_twice_frees_twice :
    (pulse_close (pulse_open ex_fresh ex_format 1000 ex_accepted).pd).calls =
      [PaCall.pa_simple_drain 7, PaCall.pa_simple_free 7] ∧
    (pulse_close (pulse_open ex_fresh ex_format 1000 ex_accepted).pd).pd.s = some 7 ∧
    (pulse_close (pulse_open ex_fresh ex_format 1000 ex_accepted).pd).pd.s ≠ none ∧
    (pulse_close (pulse_close (pulse_open ex_fresh ex_format 1000 ex_accepted).pd).pd).calls =
      [PaCall.pa_simple_drain 7, PaCall.pa_simple_free 7] ∧
    (pulse_close (pulse_close (pulse_open ex_fresh ex_format 1000 ex_accepted).pd).pd).pd =
      (pulse_close (pulse_open ex_fresh ex_format 1000 ex_accepted).pd).pd := by
  decide

/-- C8, evaluated on the protocol run `Open (accepted, handle 7); Close` from
the freshly initialised state: at the end of the run the adapter is not in the
open/playing state, yet the handle field is not null. -/
theorem run_open_close_handle_not_null :
    follows_protocol false [Op.call_open ex_format 1000 ex_accepted, Op.call_close] = true ∧
    (run { pd := ex_fresh, spec_playing := false }
        [Op.call_open ex_format 1000 ex_accepted, Op.call_close]).spec_playing = false ∧
    (run { pd := ex_fresh, spec_playing := false }
        [Op.call_open ex_format 1000 ex_accepted, Op.call_close]).pd.s = some 7 ∧
    (run { pd := ex_fresh, spec_playing := false }
        [Op.call_open ex_format 1000 ex_accepted, Op.call_close]).pd.s ≠ none := by
  decide

/-- C9: starting from a freshly initialised adapter, let the Open at time `t0`
be refused by the server.  Then that Open did contact the server and failed;
an Open at `t0 + 10` fails with no library call; a following Open at `t0 + 61`
contacts the server again.  In general every Open of a sequence made at times
in `[t0, t0 + 60)` fails with no library call, and an Open made after them at
any time `t` for which the C expression `t - t0` is at least 60 contacts the
server (by `time_sub_of_no_overflow` that is every `t` with `t - t0 ≥ 60`
whose difference to `t0` does not overflow `time_t`). -/
theorem retry_window_from_first_failure
    (getBlockParam : ConfigParam → String → Option BlockParam) (ao0 ao : audio_output)
    (af0 : Option audio_format) (param : Option ConfigParam) (pd0 : pulse_data)
    (hinit : pulse_init getBlockParam ao0 ao af0 param = some pd0)
    (af : audio_format) (t0 : Int) (reply0 : NewReply) (hrefused : reply0.s = none)
    (af10 af61 : audio_format) (reply10 reply61 : NewReply)
    (cs : List OpenCall) (hcs : ∀ c ∈ cs, t0 ≤ c.t ∧ c.t < t0 + 60)
    (c : OpenCall) (hc : time_sub c.t t0 ≥ 60) :
    contacts_server (pulse_open pd0 af t0 reply0).calls = true ∧
    (pulse_open pd0 af t0 reply0).ret = -1 ∧
    (pulse_open (pulse_open pd0 af t0 reply0).pd af10 (t0 + 10) reply10).ret = -1 ∧
    (pulse_open (pulse_open pd0 af t0 reply0).pd af10 (t0 + 10) reply10).calls = [] ∧
    contacts_server
      (pulse_open (pulse_open (pulse_open pd0 af t0 reply0).pd af10 (t0 + 10) reply10).pd
        af61 (t0 + 61) reply61).calls = true ∧
    (∀ r ∈ open_results (pulse_open pd0 af t0 reply0).pd cs, r.ret = -1 ∧ r.calls = []) ∧
    contacts_server
      (pulse_open (open_state (pulse_open pd0 af t0 reply0).pd cs) c.af c.t c.reply).calls
        = true := by
  have h0 : pd0.num_connect_attempts = 0 := by
    simp only [pulse_init, pulse_new_data, Option.some.injEq] at hinit
    rw [← hinit]
  have hnt0 : ¬ throttled pd0 t0 := fun h => h.1 h0
  have hfirst : pulse_open pd0 af t0 reply0 =
      { ret := -1
        pd := { pd0 with num_connect_attempts := 1, last_connect_attempt := t0, s := none }
        audio_format := { af with bits := 16 }
        calls := [PaCall.pa_simple_new pd0.server MPD_PULSE_NAME pd0.sink
          (audio_output_get_name pd0.ao)
          { format := .PA_SAMPLE_S16NE, rate := af.sample_rate, channels := af.channels }]
        log := [LogLine.ERROR_cannot_connect (audio_output_get_name pd0.ao) 1 reply0.error] } := by
    unfold throttled at hnt0
    unfold pulse_open
    rw [if_neg hnt0]
    simp [hrefused, h0, wrap_int]
  have hcontact : ∀ (pd : pulse_data) (g : audio_format) (t : Int) (r : NewReply),
      ¬ throttled pd t → contacts_server (pulse_open pd g t r).calls = true := by
    intro pd g t r h
    rw [pulse_open_calls_of_not_throttled pd g t r h]
    rfl
  have hsub10 : time_sub (t0 + 10) t0 = 10 :=
    time_sub_add_left t0 10 (by decide) (by decide)
  have hsub61 : time_sub (t0 + 61) t0 = 61 :=
    time_sub_add_left t0 61 (by decide) (by decide)
  rw [hfirst]
  have h10 := open_calls_all_throttled
    { pd0 with num_connect_attempts := 1, last_connect_attempt := t0, s := none }
    [{ af := af10, t := t0 + 10, reply := reply10 }] (by simp)
    (by intro d hd; simp only [List.mem_singleton] at hd; subst hd; simp only [hsub10];
        decide)
  have hall := open_calls_all_throttled
    { pd0 with num_connect_attempts := 1, last_connect_attempt := t0, s := none }
    cs (by simp)
    (by
      intro d hd
      have hd2 := hcs d hd
      have hsub : time_sub d.t t0 = d.t - t0 :=
        time_sub_of_no_overflow d.t t0 (by unfold TIME_MAX; omega) (by unfold TIME_MAX; omega)
      simp only [hsub]
      omega)
  simp only [open_results, open_state, List.mem_singleton, forall_eq] at h10
  refine ⟨rfl, rfl, h10.1.1, h10.1.2, ?_, hall.1, ?_⟩
  · rw [h10.2]
    apply hcontact
    rintro ⟨-, hlt⟩
    simp only [CONN_ATTEMPT_INTERVAL, hsub61] at hlt
    omega
  · rw [hall.2]
    apply hcontact
    rintro ⟨-, hlt⟩
    simp only [CONN_ATTEMPT_INTERVAL] at hlt
    omega

/-- Witness for C9: the adapter of `ex_ao` without configuration; a refused
Open at time 1000, throttled Opens at 1010 and 1059, then an Open at 1060. -/
theorem retry_window_from_first_failure_witness :
    contacts_server (pulse_open ex_fresh ex_format 1000 ex_refused).calls = true ∧
    (pulse_open ex_fresh ex_format 1000 ex_refused).ret = -1 ∧
    (pulse_open (pulse_open ex_fresh ex_format 1000 ex_refused).pd ex_format (1000 + 10)
        ex_accepted).ret = -1 ∧
    (pulse_open (pulse_open ex_fresh ex_format 1000 ex_refused).pd ex_format (1000 + 10)
        ex_accepted).calls = [] ∧
    contacts_server
      (pulse_open (pulse_open (pulse_open ex_fresh ex_format 1000 ex_refused).pd ex_format
        (1000 + 10) ex_accepted).pd ex_format (1000 + 61) ex_accepted).calls = true ∧
    (∀ r ∈ open_results (pulse_open ex_fresh ex_format 1000 ex_refused).pd
        [{ af := ex_format, t := 1010, reply := ex_accepted },
         { af := ex_format, t := 1059, reply := ex_accepted }],
      r.ret = -1 ∧ r.calls = []) ∧
    contacts_server
      (pulse_open (open_state (pulse_open ex_fresh ex_format 1000 ex_refused).pd
        [{ af := ex_format, t := 1010, reply := ex_accepted },
         { af := ex_format, t := 1059, reply := ex_accepted }])
        ex_format 1060 ex_accepted).calls = true :=
  retry_window_from_first_failure first_block_param ex_ao ex_ao none none ex_fresh
    (by decide) ex_format 1000 ex_refused rfl ex_format ex_format ex_accepted ex_accepted
    [{ af := ex_format, t := 1010, reply := ex_accepted },
     { af := ex_format, t := 1059, reply := ex_accepted }]
    (by decide) { af := ex_format, t := 1060, reply := ex_accepted } (by decide)

/-- C10: `pulse_init` never fails: for every output descriptor, every
(ignored) audio format and every configuration, absent or present, it returns
a state with a null handle, attempt count 0 and last attempt time 0, whose
back-reference is the given descriptor and whose `server` and `sink` are the
values of the configuration's `server` and `sink` parameters when the block
and the parameter are present, and null otherwise. -/
theorem pulse_init_never_fails
    (getBlockParam : ConfigParam → String → Option BlockParam) (ao0 ao : audio_output)
    (af : Option audio_format) (param : Option ConfigParam) :
    ∃ pd : pulse_data,
      pulse_init getBlockParam ao0 ao af param = some pd ∧
      pd.s = none ∧
      pd.num_connect_attempts = 0 ∧
      pd.last_connect_attempt = 0 ∧
      pd.ao = ao ∧
      pd.server = (param.bind fun p => getBlockParam p "server").map BlockParam.value ∧
      pd.sink = (param.bind fun p => getBlockParam p "sink").map BlockParam.value := by
  refine ⟨_, rfl, rfl, rfl, rfl, rfl, ?_, ?_⟩
  · cases param with
    | none => rfl
    | some p => cases h : getBlockParam p "server" <;> simp [pulse_new_data, h]
  · cases param with
    | none => rfl
    | some p => cases h : getBlockParam p "sink" <;> simp [pulse_new_data, h]

end PulsePlugin
